import Mathlib

/-!
# Shallow embedding of `src/tools/eugene.py`

The script is a build-orchestration CLI.  Its effectful parts (spawning
external processes via `subprocess`, mutating `os.environ`, reading console
input, `sys.exit`, failing `assert`s) are embedded as pure functions that
thread an explicit `World` (the oracle for external outcomes and console
replies, plus the `retry_avail_` global) and emit a trace of `Event`s.

Console output that carries no information (colour styling, blank lines,
the usage table's text) is recorded as bare marker events or elided.
-/

namespace Eugene

/-- Helper for `lev`: given `f = lev s1`, computes `lev (c1 :: s1)` by
structural recursion on the second string, mirroring the recursive
`classic_levenshtein` of `pylev` (the recurrence
`min(lev(s1[1:], s2) + 1, lev(s1, s2[1:]) + 1, lev(s1[1:], s2[1:]) + cost)`
with the base case `len_2 == 0 → len_1`; here `len1 = len(s1[1:])`). -/
def levAux (f : List Char → Nat) (c1 : Char) (len1 : Nat) : List Char → Nat
  | [] => len1 + 1
  | c2 :: t2 =>
      min (f (c2 :: t2) + 1)
        (min (levAux f c1 len1 t2 + 1) (f t2 + (if c1 = c2 then 0 else 1)))

/-- Classic Levenshtein distance (insert/delete/substitute, each cost 1), as
computed by `pylev.classic_levenshtein`, which the script imports as `lev`. -/
def lev : List Char → List Char → Nat
  | [] => fun string_2 => string_2.length
  | c1 :: s1 => levAux (lev s1) c1 s1.length

/-- Whether `needle` occurs as a contiguous sublist starting at some
position of `hay`. -/
def pyInAux (needle : List Char) : List Char → Bool
  | [] => needle.isEmpty
  | c :: rest => needle.isPrefixOf (c :: rest) || pyInAux needle rest

/-- Python's substring operator `needle in hay` on strings. -/
def pyIn (needle hay : String) : Bool :=
  pyInAux needle.toList hay.toList

/-- Python's `str.lower()`, applied by the script only to ASCII console
input before comparing against ASCII literals. -/
def pyLower (s : String) : String :=
  String.mk (s.data.map Char.toLower)

/-- Worker for `pysplit`: accumulate the current word (reversed) and cut at
each space, dropping empty pieces. -/
def pysplitGo (acc : List Char) : List Char → List String
  | [] => if acc.isEmpty then [] else [String.mk acc.reverse]
  | c :: rest =>
      if c = ' ' then
        (if acc.isEmpty then [] else [String.mk acc.reverse]) ++ pysplitGo [] rest
      else pysplitGo (c :: acc) rest

/-- Python's `str.split()` on the command strings of the script (whose only
whitespace is spaces): split on runs of spaces, dropping empty pieces. -/
def pysplit (s : String) : List String :=
  pysplitGo [] s.data

/-- `Param = namedtuple('Param', 'field desc subcmds')`. -/
structure Param where
  field : String
  desc : String
  subcmds : List String
  deriving DecidableEq

/-- The command registry, in source order. -/
def AvailableParams : List Param := [
  ⟨"build", "build project only", ["test: builds tests", "doc: builds doc"]⟩,
  ⟨"test", "build tests", ["runtest: runs tests"]⟩,
  ⟨"lint", "run local linters", ["style: clang-format", "tidy: ctidy"]⟩,
  ⟨"doc", "build local documentation", ["updoc: uploads to gh-pages"]⟩,
  ⟨"clean", "clean metadata", ["ignored: removes all files and dirs from the .gitignore"]⟩
]

/-- Observable effects of the script.
  * `run argv` — `subprocess.run(argv)` (exit status ignored by the script);
  * `runShell s` — `subprocess.run(s, shell=True, ...)`;
  * `checkCall argv` — `subprocess.check_call(argv)` (raises on failure);
  * `setEnv k v` — `os.environ[k] = v`;
  * `mkdirTry p ok` — the `os.mkdir(p)` attempt and whether it succeeded;
  * `msg s` — a console message;
  * `usage` — the formatted usage block printed by `usage()`;
  * `ask m a` — a `do_if` confirmation prompt `m` answered `a`;
  * `offer c a` — the fuzzy matcher's `Proceed with c?` prompt answered `a`. -/
inductive Event where
  | run (argv : List String)
  | runShell (cmd : String)
  | checkCall (argv : List String)
  | setEnv (key val : String)
  | mkdirTry (path : String) (ok : Bool)
  | msg (s : String)
  | usage
  | ask (m a : String)
  | offer (cand a : String)
  deriving DecidableEq

/-- The ambient state threaded through the embedding: the oracle of outcomes
of successive `subprocess.check_call`s, the stream of console replies to
`input()`, whether `os.mkdir("build/")` succeeds, and the script's global
`retry_avail_` flag. -/
structure World where
  checks : List Bool
  answers : List String
  mkdirOk : Bool
  retry_avail_ : Bool
  deriving DecidableEq

/-- Pop the outcome of the next `subprocess.check_call` from the oracle (an
exhausted oracle is read as a failing step; theorems supply enough entries). -/
def nextCheck (w : World) : Bool × World :=
  match w.checks with
  | [] => (false, w)
  | b :: rest => (b, { w with checks := rest })

/-- Pop the next console reply (an exhausted stream is read as an empty
reply; theorems supply enough entries). -/
def nextAnswer (w : World) : String × World :=
  match w.answers with
  | [] => ("", w)
  | a :: rest => (a, { w with answers := rest })

/-- How a piece of the script finished: returned normally, called
`sys.exit code`, or died on a failed `assert`. -/
inductive Ctl where
  | ok
  | exited (code : Int)
  | aborted (s : String)
  deriving DecidableEq

/-- `do_if(cmd, msg, qprompt)`: when `qprompt`, ask and run the command
unless the lower-cased reply is neither `''` nor `'y'`; otherwise run it
unconditionally.  The child's exit status is never inspected. -/
def do_if (cmd m : String) (qprompt : Bool) (w : World) : Ctl × World × List Event :=
  if qprompt then
    let a := (nextAnswer w).1
    let w' := (nextAnswer w).2
    let out := pyLower a
    if out ≠ "" ∧ out ≠ "y" then (.ok, w', [.ask m a])
    else (.ok, w', [.ask m a, .run (pysplit cmd)])
  else (.ok, w, [.run (pysplit cmd)])

/-- The acceptance test of the fuzzy matcher: `lev_ <= required` where
`required = 0.5 * len(arg)`.  The Python comparison is between an `int` and
the float `0.5 * len(arg)`, which is exact at these magnitudes, so it is
embedded as the rational comparison. -/
def qualifies (arg avail_arg : String) : Prop :=
  (lev arg.toList avail_arg.toList : ℚ) ≤ 0.5 * (arg.length : ℚ)

theorem qualifies_iff (arg avail_arg : String) :
    qualifies arg avail_arg ↔ 2 * lev arg.toList avail_arg.toList ≤ arg.length := by
  unfold qualifies
  have h05 : (0.5 : ℚ) * (arg.length : ℚ) = (arg.length : ℚ) / 2 := by
    rw [show (0.5 : ℚ) = 1 / 2 by norm_num]; ring
  rw [h05, le_div_iff₀ (by norm_num : (0 : ℚ) < 2), mul_comm]
  norm_cast

instance (arg avail_arg : String) : Decidable (qualifies arg avail_arg) :=
  decidable_of_iff _ (qualifies_iff arg avail_arg).symm

/-- The candidate loop of `autocomplete`: scan `avail_args` in order; at the
first candidate within the threshold, prompt the user and stop scanning
(`break`), returning the candidate exactly when the lower-cased reply is
`'y'`. -/
def autocompleteScan (arg : String) (avail_args : List String) (w : World) :
    Option String × World × List Event :=
  match avail_args with
  | [] => (none, w, [])
  | avail_arg :: rest =>
      if qualifies arg avail_arg then
        let a := (nextAnswer w).1
        ((if pyLower a = "y" then some avail_arg else none), (nextAnswer w).2,
          [.offer avail_arg a])
      else autocompleteScan arg rest w

/-- `autocomplete(arg)`: returns no suggestion at once when `retry_avail_` is
already `False`; otherwise flips `retry_avail_` to `False` and scans the
registry fields.  (Python returns `False` on a closed gate and `None` when no
candidate is accepted; both are falsy at the call site and are conflated into
`none`.) -/
def autocomplete (arg : String) (w : World) : Option String × World × List Event :=
  if !w.retry_avail_ then (none, w, [])
  else autocompleteScan arg (AvailableParams.map Param.field)
    { w with retry_avail_ := !w.retry_avail_ }

/-- `conan install . -if build --build=missing`, split. -/
def conan_install_command : List String :=
  pysplit "conan install . -if build --build=missing"

/-- The cmake configure command for a compiler pair, split.  (The Python
source builds it with an f-string whose line continuations leave extra runs
of spaces, which `str.split()` collapses.) -/
def cmake_command (compiler_matrix : String × String) : List String :=
  pysplit ("cmake -S. -Bbuild -GNinja -DCMAKE_C_COMPILER=" ++ compiler_matrix.1
    ++ " -DCMAKE_CXX_COMPILER=" ++ compiler_matrix.2)

/-- `do_config_cmd(compiler_matrix)`: export `CC`/`CXX`, then inside `try:`
run `check_call(conan)`, `run(conan)`, `check_call(cmake)`, `run(cmake)`.
A failing `check_call` raises, landing in `except:`, which reports failure;
otherwise the attempt succeeds. -/
def do_config_cmd (compiler_matrix : String × String) (w : World) :
    Bool × World × List Event :=
  let pre : List Event :=
    [.setEnv "CC" compiler_matrix.1, .setEnv "CXX" compiler_matrix.2,
     .msg "Trying to configure project ..."]
  let w1 := (nextCheck w).2
  if !(nextCheck w).1 then
    (false, w1, pre ++ [.checkCall conan_install_command, .msg "Configuration failed :("])
  else
    let w2 := (nextCheck w1).2
    if !(nextCheck w1).1 then
      (false, w2, pre ++ [.checkCall conan_install_command, .run conan_install_command,
        .checkCall (cmake_command compiler_matrix), .msg "Configuration failed :("])
    else
      (true, w2, pre ++ [.checkCall conan_install_command, .run conan_install_command,
        .checkCall (cmake_command compiler_matrix), .run (cmake_command compiler_matrix),
        .msg "Configuration successful!"])

/-- `do_config()`: try to create `build/`, then try the primary toolchain
pair `('gcc-11', 'g++-11')`; on failure try the fallback `('gcc', 'g++')`;
if that also fails, `sys.exit(-1)`. -/
def do_config (w : World) : Ctl × World × List Event :=
  let mkEv : List Event :=
    [.mkdirTry "build/" w.mkdirOk,
     .msg (if w.mkdirOk then "INFO: Created 'build/' directory"
           else "INFO: 'build/' directory already exists")]
  let r1 := do_config_cmd ("gcc-11", "g++-11") w
  if r1.1 then (.ok, r1.2.1, mkEv ++ r1.2.2)
  else
    let r2 := do_config_cmd ("gcc", "g++") r1.2.1
    if r2.1 then (.ok, r2.2.1, mkEv ++ r1.2.2 ++ r2.2.2)
    else (.exited (-1), r2.2.1, mkEv ++ r1.2.2 ++ r2.2.2)

/-- `do_build(test, doc)`: configure, set `EUGENE_BUILD_TESTS=1` when `test`,
run ninja, and — only after the build — hit `assert False` when `doc`. -/
def do_build (test doc : Bool) (w : World) : Ctl × World × List Event :=
  match do_config w with
  | (.ok, w1, t1) =>
      let t2 : List Event :=
        (if test then [Event.setEnv "EUGENE_BUILD_TESTS" "1"] else []) ++
        [.msg (if test then "Building project and tests" else "Building project"),
         .run (pysplit "ninja -Cbuild -j4")]
      if doc then (.aborted "Building doc is not yet supported", w1, t1 ++ t2)
      else (.ok, w1, t1 ++ t2)
  | r => r

/-- `do_run_test()`. -/
def do_run_test (w : World) : Ctl × World × List Event :=
  (.ok, w, [.msg "Running tests",
    .run (pysplit "ctest --rerun-failed --output-on-failure --test-dir build/")])

/-- `do_updoc()`. -/
def do_updoc (w : World) : Ctl × World × List Event :=
  (.ok, w, [.msg "Uploading docs"])

/-- `do_lint()` (the `clangtidy_cmd` string in the source is built but never
executed). -/
def do_lint (w : World) : Ctl × World × List Event :=
  (.ok, w, [.msg "Linting",
    .run ["clang-format-all", "src/core", "src/eugene-api"],
    .runShell "find . -name \"CMakeLists.txt\" | xargs cmake-format -i"])

/-- `do_clean(is_kind)`: two `do_if`-gated removals, then a closing message. -/
def do_clean (is_kind : Bool) (w : World) : Ctl × World × List Event :=
  let r1 := do_if "rm -rf build" "Removing build directory" is_kind w
  let r2 := do_if "rm -f build.log" "Removing build logs" is_kind r1.2.1
  (.ok, r2.2.1, r1.2.2 ++ r2.2.2 ++ [.msg "Clean without scratching"])

/-- `parse(cmd_line, cmd, cmd_args, cmd_argc)`.  The recursive re-dispatch
after a fuzzy match is bounded by explicit fuel (`none` = fuel ran out, which
no theorem relies on; the real recursion depth is at most one since every
suggestion is a registry command). -/
def parse (fuel : Nat) (cmd_line : List String) (cmd : String)
    (cmd_args : List String) (cmd_argc : Nat) (w : World) :
    Option (Ctl × World × List Event) :=
  match fuel with
  | 0 => none
  | fuel + 1 =>
    if cmd_argc > 1 then some (.aborted "cmd_argc <= 1", w, [])
    else if cmd = "build" then
      let td : Bool × Bool :=
        if cmd_argc = 1 then
          (pyIn "test" (cmd_args.headD ""), pyIn "doc" (cmd_args.headD ""))
        else (false, false)
      some (do_build td.1 td.2 w)
    else if cmd = "config" then
      if cmd_argc = 0 then some (do_config w)
      else some (.aborted "cmd_argc == 0", w, [])
    else if cmd = "test" then
      match do_build true false w with
      | (.ok, w1, t1) =>
          if cmd_argc = 1 ∧ pyIn "run" (cmd_args.headD "") = true then
            some ((do_run_test w1).1, (do_run_test w1).2.1, t1 ++ (do_run_test w1).2.2)
          else some (.ok, w1, t1)
      | r => some r
    else if cmd = "clean" ∨ cmd = "mrproper" then
      let forced : Bool :=
        (decide (cmd_argc = 1) && pyIn "force" (cmd_args.headD "")) || decide (cmd_argc = 0)
      let kind : Bool := decide (cmd_argc = 1) && pyIn "kind" (cmd_args.headD "")
      some (do_clean (kind && !forced) w)
    else if cmd = "lint" then
      if cmd_argc = 0 then some (do_lint w)
      else some (.aborted "cmd_argc == 0", w, [])
    else if cmd = "doc" then
      match do_build false true w with
      | (.ok, w1, t1) =>
          if cmd_argc = 1 ∧ pyIn "up" (cmd_args.headD "") = true then
            some ((do_updoc w1).1, (do_updoc w1).2.1, t1 ++ (do_updoc w1).2.2)
          else some (.ok, w1, t1)
      | r => some r
    else if cmd = "version" then
      some (.ok, w, [.msg "Eugene 0.01"])
    else
      match (autocomplete cmd w).1 with
      | some actual_cmd =>
          match parse fuel cmd_line actual_cmd cmd_args cmd_argc (autocomplete cmd w).2.1 with
          | some r =>
              some (r.1, r.2.1, Event.usage :: ((autocomplete cmd w).2.2 ++ r.2.2))
          | none => none
      | none =>
          some (.ok, (autocomplete cmd w).2.1, Event.usage :: (autocomplete cmd w).2.2)

/-- Observer: is this event an export of the `CC` environment variable
(the marker of a toolchain-candidate attempt in `do_config_cmd`)? -/
def isCCEnv : Event → Bool
  | .setEnv "CC" _ => true
  | _ => false

/-- Observer: is this event an external-process invocation? -/
def isInvocation : Event → Bool
  | .run _ => true
  | .runShell _ => true
  | .checkCall _ => true
  | _ => false

/-! ## Helper lemmas -/

theorem nextAnswer_checks (w : World) : (nextAnswer w).2.checks = w.checks := by
  unfold nextAnswer
  cases w.answers <;> rfl

theorem nextAnswer_mkdirOk (w : World) : (nextAnswer w).2.mkdirOk = w.mkdirOk := by
  unfold nextAnswer
  cases w.answers <;> rfl

theorem nextAnswer_retry (w : World) :
    (nextAnswer w).2.retry_avail_ = w.retry_avail_ := by
  unfold nextAnswer
  cases w.answers <;> rfl

/-- The candidate loop never touches the retry gate. -/
theorem autocompleteScan_retry (arg : String) (cands : List String) (w : World) :
    ((autocompleteScan arg cands w).2.1).retry_avail_ = w.retry_avail_ := by
  induction cands generalizing w with
  | nil => rfl
  | cons hd tl ih =>
      unfold autocompleteScan
      by_cases hq : qualifies arg hd
      · simp only [if_pos hq]
        exact nextAnswer_retry w
      · simp only [if_neg hq]
        exact ih w

/-- A suggestion returned by the candidate loop is one of the candidates. -/
theorem autocompleteScan_result_mem (arg : String) (cands : List String) (w : World)
    (c : String) (h : (autocompleteScan arg cands w).1 = some c) : c ∈ cands := by
  induction cands generalizing w with
  | nil => exact absurd h (by simp [autocompleteScan])
  | cons hd tl ih =>
      unfold autocompleteScan at h
      by_cases hq : qualifies arg hd
      · rw [if_pos hq] at h
        by_cases hy : pyLower (nextAnswer w).1 = "y"
        · simp only [if_pos hy] at h
          simp only [Option.some.injEq] at h
          exact h ▸ List.mem_cons_self hd tl
        · simp only [if_neg hy] at h
          exact absurd h (by simp)
      · rw [if_neg hq] at h
        exact List.mem_cons_of_mem hd (ih _ h)

/-- A candidate is prompted (`offer`ed) by the candidate loop exactly when it
is the first one in scan order within the threshold; the reply stream plays
no role in which candidate is offered. -/
theorem autocompleteScan_offer_iff (arg : String) (cands : List String) (w : World)
    (c : String) :
    (∃ a, Event.offer c a ∈ (autocompleteScan arg cands w).2.2) ↔
      ∃ pre post, cands = pre ++ c :: post ∧ qualifies arg c ∧
        ∀ d ∈ pre, ¬ qualifies arg d := by
  induction cands generalizing w with
  | nil =>
      simp only [autocompleteScan, List.not_mem_nil, exists_false, false_iff]
      rintro ⟨pre, post, hcat, -, -⟩
      exact absurd hcat (by simp)
  | cons hd tl ih =>
      unfold autocompleteScan
      by_cases hq : qualifies arg hd
      · simp only [if_pos hq, List.mem_singleton]
        constructor
        · rintro ⟨a, ha⟩
          have hc : c = hd := by
            have := (Event.offer.injEq _ _ _ _).mp ha
            exact this.1
          exact ⟨[], tl, by simp [hc], hc ▸ hq, by simp⟩
        · rintro ⟨pre, post, hcat, hqc, hpre⟩
          cases pre with
          | nil =>
              have hc : hd = c := by simpa using congrArg (fun l => l.headD "") hcat
              exact ⟨(nextAnswer w).1, by rw [hc]⟩
          | cons p ps =>
              have hp : hd = p := by simpa using congrArg (fun l => l.headD "") hcat
              exact absurd (hp ▸ hq) (hpre p (List.mem_cons_self p ps))
      · simp only [if_neg hq]
        rw [ih w]
        constructor
        · rintro ⟨pre, post, hcat, hqc, hpre⟩
          refine ⟨hd :: pre, post, by simp [hcat], hqc, ?_⟩
          intro d hd'
          rcases List.mem_cons.mp hd' with h | h
          · exact h ▸ hq
          · exact hpre d h
        · rintro ⟨pre, post, hcat, hqc, hpre⟩
          cases pre with
          | nil =>
              have hc : hd = c := by simpa using congrArg (fun l => l.headD "") hcat
              exact absurd (hc ▸ hq) (fun h => h hqc)
          | cons p ps =>
              have htl : tl = ps ++ c :: post := by
                simpa using congrArg List.tail hcat
              exact ⟨ps, post, htl, hqc, fun d h => hpre d (List.mem_cons_of_mem p h)⟩

/-- The candidate loop prompts at most once. -/
theorem autocompleteScan_trace_len (arg : String) (cands : List String) (w : World) :
    (autocompleteScan arg cands w).2.2.length ≤ 1 := by
  induction cands generalizing w with
  | nil => simp [autocompleteScan]
  | cons hd tl ih =>
      unfold autocompleteScan
      by_cases hq : qualifies arg hd
      · simp [if_pos hq]
      · simp only [if_neg hq]
        exact ih w

/-- A closed gate short-circuits `autocomplete` entirely. -/
theorem autocomplete_gate_closed (arg : String) (w : World)
    (h : w.retry_avail_ = false) : autocomplete arg w = (none, w, []) := by
  unfold autocomplete
  rw [h]
  rfl

/-- `autocomplete` leaves the gate closed no matter how it was entered. -/
theorem autocomplete_retry_false (arg : String) (w : World) :
    ((autocomplete arg w).2.1).retry_avail_ = false := by
  unfold autocomplete
  cases h : w.retry_avail_
  · simpa using h
  · simpa using autocompleteScan_retry arg (AvailableParams.map Param.field)
      { w with retry_avail_ := !true }

/-- An open gate sends `autocomplete` into the candidate loop with the gate
flipped shut. -/
theorem autocomplete_gate_open (arg : String) (w : World) (h : w.retry_avail_ = true) :
    autocomplete arg w
      = autocompleteScan arg (AvailableParams.map Param.field)
          { w with retry_avail_ := false } := by
  unfold autocomplete
  rw [h]
  rfl

/-- Any suggestion `autocomplete` returns is a registry field. -/
theorem autocomplete_result_mem (arg c : String) (w : World)
    (h : (autocomplete arg w).1 = some c) : c ∈ AvailableParams.map Param.field := by
  by_cases hr : w.retry_avail_ = true
  · rw [autocomplete_gate_open arg w hr] at h
    exact autocompleteScan_result_mem _ _ _ _ h
  · have hr' : w.retry_avail_ = false := by revert hr; cases w.retry_avail_ <;> simp
    rw [autocomplete_gate_closed arg w hr'] at h
    exact absurd h (by simp)

/-- Any candidate `autocomplete` ever prompts about is a registry field. -/
theorem autocomplete_offer_mem (arg c a : String) (w : World)
    (h : Event.offer c a ∈ (autocomplete arg w).2.2) :
    c ∈ AvailableParams.map Param.field := by
  by_cases hr : w.retry_avail_ = true
  · rw [autocomplete_gate_open arg w hr] at h
    obtain ⟨pre, post, hcat, -, -⟩ := (autocompleteScan_offer_iff _ _ _ _).mp ⟨a, h⟩
    rw [hcat]
    simp
  · have hr' : w.retry_avail_ = false := by revert hr; cases w.retry_avail_ <;> simp
    rw [autocomplete_gate_closed arg w hr'] at h
    exact absurd h (by simp)

/-! ## Claims -/

/-- C1: with the gate open, the fuzzy matcher offers candidate `c` for token
`arg` if and only if `c` is a registry command whose classic Levenshtein
distance to `arg` is at most `0.5 * length arg` (`qualifies`, a `≤` so a
distance exactly at the threshold is accepted) and every candidate before
`c` in registry order is beyond the threshold; moreover at most one
candidate is ever offered (the scan stops at the first qualifying candidate
no matter what the user answers — the reply stream `ans` is arbitrary on
both sides). -/
theorem C1_offer_iff_first_qualifying (arg c : String) (cs : List Bool)
    (ans : List String) (mk : Bool) :
    ((∃ a, Event.offer c a ∈ (autocomplete arg ⟨cs, ans, mk, true⟩).2.2) ↔
      ∃ pre post, AvailableParams.map Param.field = pre ++ c :: post ∧
        qualifies arg c ∧ ∀ d ∈ pre, ¬ qualifies arg d)
    ∧ (autocomplete arg ⟨cs, ans, mk, true⟩).2.2.length ≤ 1 := by
  rw [autocomplete_gate_open arg ⟨cs, ans, mk, true⟩ rfl]
  exact ⟨autocompleteScan_offer_iff _ _ _ _, autocompleteScan_trace_len _ _ _⟩

/-- Witness for C1 at the threshold boundary: for token `"bull"` the
distance to `"build"` is exactly `2 = 0.5 * 4`, and `"build"` — the first
registry candidate — is offered (even though the user answers `"n"`). -/
theorem C1_offer_iff_first_qualifying_witness :
    ∃ a, Event.offer "build" a ∈
      (autocomplete "bull" ⟨[], ["n"], true, true⟩).2.2 :=
  (C1_offer_iff_first_qualifying "bull" "build" [] ["n"] true).1.mpr
    ⟨[], ["test", "lint", "doc", "clean"], by decide, by decide, by decide⟩

/-- C2: the RetryGate admits one fuzzy-match attempt per run.  With the gate
closed, `autocomplete` returns no suggestion at once, leaves the state
untouched and scans nothing (empty trace); any invocation leaves the gate
closed; hence a second invocation in the same run — in particular the one a
recursive re-dispatch would make — yields no suggestion and no prompt. -/
theorem C2_retry_gate_single_attempt (arg1 arg2 : String) (cs : List Bool)
    (ans : List String) (mk : Bool) (w : World) :
    autocomplete arg1 ⟨cs, ans, mk, false⟩ = (none, ⟨cs, ans, mk, false⟩, [])
    ∧ ((autocomplete arg1 w).2.1).retry_avail_ = false
    ∧ (autocomplete arg2 (autocomplete arg1 w).2.1).1 = none
    ∧ (autocomplete arg2 (autocomplete arg1 w).2.1).2.2 = [] := by
  refine ⟨autocomplete_gate_closed _ _ rfl, autocomplete_retry_false _ _, ?_, ?_⟩
  · rw [autocomplete_gate_closed _ _ (autocomplete_retry_false arg1 w)]
  · rw [autocomplete_gate_closed _ _ (autocomplete_retry_false arg1 w)]

/-- C8: the registry's fields are exactly `build`, `test`, `lint`, `doc`,
`clean`; every suggestion returned and every candidate prompted is one of
them, and `config`, `mrproper`, `version` are never suggested. -/
theorem C8_registry_closed (arg c a : String) (w : World) :
    AvailableParams.map Param.field = ["build", "test", "lint", "doc", "clean"]
    ∧ ((autocomplete arg w).1 = some c → c ∈ ["build", "test", "lint", "doc", "clean"])
    ∧ (Event.offer c a ∈ (autocomplete arg w).2.2 →
        c ∈ ["build", "test", "lint", "doc", "clean"])
    ∧ (autocomplete arg w).1 ≠ some "config"
    ∧ (autocomplete arg w).1 ≠ some "mrproper"
    ∧ (autocomplete arg w).1 ≠ some "version" := by
  have hreg : AvailableParams.map Param.field
      = ["build", "test", "lint", "doc", "clean"] := rfl
  refine ⟨hreg, ?_, ?_, ?_, ?_, ?_⟩
  · intro h
    exact hreg ▸ autocomplete_result_mem arg c w h
  · intro h
    exact hreg ▸ autocomplete_offer_mem arg c a w h
  · intro h
    have := hreg ▸ autocomplete_result_mem arg "config" w h
    exact absurd this (by decide)
  · intro h
    have := hreg ▸ autocomplete_result_mem arg "mrproper" w h
    exact absurd this (by decide)
  · intro h
    have := hreg ▸ autocomplete_result_mem arg "version" w h
    exact absurd this (by decide)

/-- Witness for C8: token `"bild"` gets suggested `"build"` (user answers
`"y"`), and `"build"` is indeed in the registry list. -/
theorem C8_registry_closed_witness :
    "build" ∈ ["build", "test", "lint", "doc", "clean"] :=
  (C8_registry_closed "bild" "build" "y" ⟨[], ["y"], true, true⟩).2.1 (by decide)

/-- C3: with more than one sub-argument the dispatcher dies on its leading
`assert cmd_argc <= 1` — the returned trace is empty, so no external
invocation (`run`/`runShell`/`checkCall`) and no environment mutation
(`setEnv`) has happened, whatever the command and state. -/
theorem C3_argc_precondition_aborts (f : Nat) (cl : List String) (cmd : String)
    (args : List String) (argc : Nat) (w : World) (h : 1 < argc) :
    parse (f + 1) cl cmd args argc w = some (.aborted "cmd_argc <= 1", w, []) := by
  unfold parse
  rw [if_pos h]

/-- Witness for C3: `build` with two sub-arguments aborts with nothing run. -/
theorem C3_argc_precondition_aborts_witness :
    parse 1 [] "build" ["test", "doc"] 2 ⟨[], [], true, true⟩
      = some (.aborted "cmd_argc <= 1", ⟨[], [], true, true⟩, []) :=
  C3_argc_precondition_aborts 0 [] "build" ["test", "doc"] 2 _ (by decide)

/-- C9: `config` and `lint` with exactly one sub-argument (so the leading
`assert cmd_argc <= 1` passes) die on their branch's `assert cmd_argc == 0`
with an empty trace: no external invocation happens, the extra token is not
ignored. -/
theorem C9_config_lint_reject_subarg (f : Nat) (cl : List String) (s : String)
    (w : World) :
    parse (f + 1) cl "config" [s] 1 w = some (.aborted "cmd_argc == 0", w, [])
    ∧ parse (f + 1) cl "lint" [s] 1 w = some (.aborted "cmd_argc == 0", w, []) := by
  constructor
  · unfold parse
    rw [if_neg (by decide), if_neg (by decide), if_pos rfl, if_neg (by decide)]
  · unfold parse
    rw [if_neg (by decide), if_neg (by decide), if_neg (by decide),
      if_neg (by decide), if_neg (by decide), if_pos rfl, if_neg (by decide)]

/-- With one sub-argument, the `clean` branch passes
`kind and not forced` — here `forced` reduces to `'force' in s` — to
`do_clean`. -/
theorem parse_clean_one (f : Nat) (cl : List String) (s : String) (w : World) :
    parse (f + 1) cl "clean" [s] 1 w
      = some (do_clean (pyIn "kind" s && !(pyIn "force" s)) w) := by
  unfold parse
  rw [if_neg (by decide), if_neg (by decide), if_neg (by decide), if_neg (by decide),
    if_pos (Or.inl rfl)]
  simp

/-- With no sub-argument `forced` is true, so `do_clean` gets `false`. -/
theorem parse_clean_zero (f : Nat) (cl : List String) (w : World) :
    parse (f + 1) cl "clean" [] 0 w = some (do_clean false w) := by
  unfold parse
  rw [if_neg (by decide), if_neg (by decide), if_neg (by decide), if_neg (by decide),
    if_pos (Or.inl rfl)]
  rfl

/-- `mrproper` takes the same branch as `clean`. -/
theorem parse_mrproper_one (f : Nat) (cl : List String) (s : String) (w : World) :
    parse (f + 1) cl "mrproper" [s] 1 w
      = some (do_clean (pyIn "kind" s && !(pyIn "force" s)) w) := by
  unfold parse
  rw [if_neg (by decide), if_neg (by decide), if_neg (by decide), if_neg (by decide),
    if_pos (Or.inr rfl)]
  simp

/-- C5: for `clean`/`mrproper` with one sub-argument `s`, the ask-first flag
handed to the clean action is `('kind' in s) AND NOT ('force' in s)`
(`forced` being `'force' in s` when a sub-argument is present, true when
none is); `clean` with no sub-argument behaves identically to
`clean force`, and `mrproper` identically to `clean`. -/
theorem C5_clean_forced_kind (s : String) (f : Nat) (cl cl2 : List String) (w : World) :
    parse (f + 1) cl "clean" [s] 1 w
        = some (do_clean (pyIn "kind" s && !(pyIn "force" s)) w)
    ∧ parse (f + 1) cl "clean" [] 0 w = parse (f + 1) cl2 "clean" ["force"] 1 w
    ∧ parse (f + 1) cl "mrproper" [s] 1 w = parse (f + 1) cl2 "clean" [s] 1 w := by
  refine ⟨parse_clean_one f cl s w, ?_, ?_⟩
  · rw [parse_clean_zero f cl w, parse_clean_one f cl2 "force" w]
    rfl
  · rw [parse_mrproper_one f cl s w, parse_clean_one f cl2 s w]

/-- C7: `do_if` with `qprompt` runs the command exactly when the lower-cased
reply is the empty string or `"y"`; without `qprompt` it always runs it.  In
both cases it finishes normally (`Ctl.ok`) without consulting the
`checks` oracle: the child's exit status is never inspected or surfaced. -/
theorem C7_do_if_prompt (cmd m a : String) (cs : List Bool) (rest : List String)
    (mk rt : Bool) (w : World) :
    do_if cmd m true ⟨cs, a :: rest, mk, rt⟩
      = (.ok, ⟨cs, rest, mk, rt⟩,
         if pyLower a = "" ∨ pyLower a = "y"
         then [Event.ask m a, Event.run (pysplit cmd)]
         else [Event.ask m a])
    ∧ do_if cmd m false w = (.ok, w, [Event.run (pysplit cmd)]) := by
  constructor
  · by_cases hA : pyLower a = ""
    · simp [do_if, nextAnswer, hA]
    · by_cases hB : pyLower a = "y"
      · simp [do_if, nextAnswer, hA, hB]
      · simp [do_if, nextAnswer, hA, hB]
  · simp [do_if]

/-- C6: over the four `check_call` outcomes a run can consume, `do_config`
always attempts the primary pair `gcc-11`/`g++-11`; the fallback pair
`gcc`/`g++` is attempted (in that order, witnessed by the `CC` exports in
the trace) exactly when the primary attempt fails, and no other pair is ever
attempted; the run ends normally when either attempt succeeds and with
`sys.exit(-1)` when both fail.  (A failed first `check_call` aborts an
attempt before its second one, hence the oracle indices in the outcome.) -/
theorem C6_two_toolchain_candidates (b1 b2 b3 b4 mk rt : Bool) (ans : List String) :
    ((do_config ⟨[b1, b2, b3, b4], ans, mk, rt⟩).2.2.filter isCCEnv
      = (if b1 && b2 then [Event.setEnv "CC" "gcc-11"]
         else [Event.setEnv "CC" "gcc-11", Event.setEnv "CC" "gcc"]))
    ∧ ((do_config ⟨[b1, b2, b3, b4], ans, mk, rt⟩).1
      = (if b1 && b2 then Ctl.ok
         else if (if b1 then b3 && b4 else b2 && b3) then Ctl.ok
         else Ctl.exited (-1))) := by
  cases b1 <;> cases b2 <;> cases b3 <;> cases b4 <;>
    exact ⟨by simp [do_config, do_config_cmd, nextCheck, isCCEnv],
           by simp [do_config, do_config_cmd, nextCheck]⟩

/-- C10: a successful configuration attempt executes the dependency-install
command twice (`check_call` then `run`) and the build-file-generation
command twice (`check_call` then `run`) — four external invocations in all,
not two. -/
theorem C10_config_attempt_runs_each_twice (cc cxx : String) (cs : List Bool)
    (ans : List String) (mk rt : Bool) :
    do_config_cmd (cc, cxx) ⟨true :: true :: cs, ans, mk, rt⟩
      = (true, ⟨cs, ans, mk, rt⟩,
         [Event.setEnv "CC" cc, Event.setEnv "CXX" cxx,
          Event.msg "Trying to configure project ...",
          Event.checkCall conan_install_command, Event.run conan_install_command,
          Event.checkCall (cmake_command (cc, cxx)), Event.run (cmake_command (cc, cxx)),
          Event.msg "Configuration successful!"])
    ∧ ((do_config_cmd (cc, cxx) ⟨true :: true :: cs, ans, mk, rt⟩).2.2.filter
        isInvocation).length = 4 :=
  ⟨rfl, rfl⟩

/-- C4 counterexample.  The claim quantifies over every sole sub-argument
containing `"test"` and asserts (i) the flag is set and then configuration
runs before the build, and (ii) the doc build is not run and the process
does not abort.  Both parts fail on the code: at the concrete input
`build testdoc` (a sole sub-argument containing `"test"`) the run aborts on
`assert False, "Building doc is not yet supported"`; and at `build test`
(checked invocations succeeding) an external configuration invocation
already appears in the trace strictly before `EUGENE_BUILD_TESTS` is set —
the flag is set after configuration, not before. -/
theorem C4_counterexample :
    ((parse 1 [] "build" ["testdoc"] 1 ⟨[true, true], [], true, true⟩).map
        (fun r => r.1) = some (Ctl.aborted "Building doc is not yet supported"))
    ∧ ((parse 1 [] "build" ["test"] 1 ⟨[true, true], [], true, true⟩).map
        (fun r => (r.2.2.takeWhile
            (fun e => e != Event.setEnv "EUGENE_BUILD_TESTS" "1")).contains
          (Event.checkCall conan_install_command))
        = some true) :=
  ⟨rfl, rfl⟩

/-- C4 (amended): for `build` with a sole sub-argument containing `"test"`
but not `"doc"`, when the checked configuration steps succeed, the
configuration workflow runs first, then `EUGENE_BUILD_TESTS` is set to
`"1"`, then the build-execution workflow (`ninja`) runs; the doc build is
not attempted and the run ends normally (no abort). -/
theorem C4_build_test_flag_and_order (s : String) (f : Nat) (cl : List String)
    (cs : List Bool) (ans : List String) (mk rt : Bool)
    (h1 : pyIn "test" s = true) (h2 : pyIn "doc" s = false) :
    parse (f + 1) cl "build" [s] 1 ⟨true :: true :: cs, ans, mk, rt⟩
      = some (.ok, ⟨cs, ans, mk, rt⟩,
          [Event.mkdirTry "build/" mk,
           Event.msg (if mk then "INFO: Created 'build/' directory"
                      else "INFO: 'build/' directory already exists"),
           Event.setEnv "CC" "gcc-11", Event.setEnv "CXX" "g++-11",
           Event.msg "Trying to configure project ...",
           Event.checkCall conan_install_command, Event.run conan_install_command,
           Event.checkCall (cmake_command ("gcc-11", "g++-11")),
           Event.run (cmake_command ("gcc-11", "g++-11")),
           Event.msg "Configuration successful!",
           Event.setEnv "EUGENE_BUILD_TESTS" "1",
           Event.msg "Building project and tests",
           Event.run (pysplit "ninja -Cbuild -j4")]) := by
  unfold parse
  rw [if_neg (by decide), if_pos rfl]
  show some (do_build (pyIn "test" s) (pyIn "doc" s) _) = _
  rw [h1, h2]
  rfl

/-- Witness for the amended C4 at the spec's own scenario
`["build", "test"]`. -/
theorem C4_build_test_flag_and_order_witness :
    parse 1 [] "build" ["test"] 1 ⟨[true, true], [], true, true⟩
      = some (.ok, ⟨[], [], true, true⟩,
          [Event.mkdirTry "build/" true,
           Event.msg "INFO: Created 'build/' directory",
           Event.setEnv "CC" "gcc-11", Event.setEnv "CXX" "g++-11",
           Event.msg "Trying to configure project ...",
           Event.checkCall conan_install_command, Event.run conan_install_command,
           Event.checkCall (cmake_command ("gcc-11", "g++-11")),
           Event.run (cmake_command ("gcc-11", "g++-11")),
           Event.msg "Configuration successful!",
           Event.setEnv "EUGENE_BUILD_TESTS" "1",
           Event.msg "Building project and tests",
           Event.run (pysplit "ninja -Cbuild -j4")]) :=
  C4_build_test_flag_and_order "test" 0 [] [] [] true true (by decide) (by decide)

end Eugene
